import Mathlib

/-!
Verification of the camera discovery and selection subsystem
(`src/camera_utils.py`, `test_all_cameras.py`) against its design spec.

The external environment (the OS video-capture layer reached through
`cv2.VideoCapture`) is modelled as a function from device indices to
device behaviours.  A `cv2.VideoCapture(i)` call acquires an OS device
handle exactly when the open succeeds (`isOpened()` true); a failed open
holds no handle.  Each operation is embedded twice where needed: once as
a pure result function and once as the list of capture-layer events it
performs, so that handle usage and configuration calls can be inspected.
-/

/-- Behaviour of the device (if any) sitting at one index of the
capture layer: whether `cv2.VideoCapture(i)` opens, whether a frame
read succeeds, and the characteristics reported by the driver. -/
structure Device where
  opens : Bool
  readOk : Bool
  width : Nat
  height : Nat
  backend : String
deriving DecidableEq, Repr

/-- The capture layer: what device behaviour each index exhibits. -/
abbrev World := Nat → Device

/-- Probe Result of the spec's data model. -/
inductive ProbeOutcome where
  | unavailable
  | opensButNoFrame
  | working (width height : Nat) (backend : String)
deriving DecidableEq, Repr

/-- Outcome of probing one index, as classified by the spec. -/
def probeResult (d : Device) : ProbeOutcome :=
  if d.opens then
    if d.readOk then .working d.width d.height d.backend
    else .opensButNoFrame
  else .unavailable

/-- Whether a probe outcome is `Working`. -/
def ProbeOutcome.isWorking : ProbeOutcome → Bool
  | .working _ _ _ => true
  | _ => false

/-- `get_available_cameras` (camera_utils.py:8-26): loop `i` over
`range(max_test)`, open `cv2.VideoCapture(i)`; if it opened, read one
frame and append `i` to `available` when the read succeeded; release
the handle; return the accumulated list. -/
def get_available_cameras (world : World) (maxTest : Nat) : List Nat :=
  (List.range maxTest).foldl
    (fun available i =>
      if (world i).opens then
        if (world i).readOk then available ++ [i] else available
      else available)
    []

theorem get_available_cameras_eq_filter (world : World) (n : Nat) :
    get_available_cameras world n =
      (List.range n).filter (fun i => (world i).opens && (world i).readOk) := by
  have aux : ∀ (l acc : List Nat),
      l.foldl
        (fun available i =>
          if (world i).opens then
            if (world i).readOk then available ++ [i] else available
          else available)
        acc
      = acc ++ l.filter (fun i => (world i).opens && (world i).readOk) := by
    intro l
    induction l with
    | nil => intro acc; simp
    | cons x t ih =>
      intro acc
      rcases h1 : (world x).opens <;> rcases h2 : (world x).readOk <;>
        simp [List.foldl_cons, List.filter_cons, h1, h2, ih]
  simpa [get_available_cameras] using aux (List.range n) []

theorem isWorking_probeResult (d : Device) :
    (probeResult d).isWorking = (d.opens && d.readOk) := by
  rcases h1 : d.opens <;> rcases h2 : d.readOk <;>
    simp [probeResult, ProbeOutcome.isWorking, h1, h2]

theorem get_available_cameras_pairwise (world : World) (n : Nat) :
    (get_available_cameras world n).Pairwise (· < ·) := by
  rw [get_available_cameras_eq_filter]
  exact (List.pairwise_lt_range n).sublist (List.filter_sublist _)

/-- C2: for every scan bound and every assignment of device behaviours,
`get_available_cameras` returns a strictly ascending subsequence of
`0..bound-1`, of length at most `bound`, containing exactly the indices
below the bound whose probe outcome is `Working`, with no duplicates. -/
theorem enumerate_ascending_working (world : World) (bound : Nat) :
    (get_available_cameras world bound).Pairwise (· < ·)
    ∧ (get_available_cameras world bound).Sublist (List.range bound)
    ∧ (get_available_cameras world bound).length ≤ bound
    ∧ (∀ i, i ∈ get_available_cameras world bound ↔
        i < bound ∧ (probeResult (world i)).isWorking = true)
    ∧ (get_available_cameras world bound).Nodup := by
  refine ⟨get_available_cameras_pairwise world bound, ?_, ?_, ?_,
    (get_available_cameras_pairwise world bound).imp (fun h => Nat.ne_of_lt h)⟩
  · rw [get_available_cameras_eq_filter]
    exact List.filter_sublist _
  · rw [get_available_cameras_eq_filter]
    calc ((List.range bound).filter _).length
        ≤ (List.range bound).length := List.length_filter_le _ _
      _ = bound := List.length_range bound
  · intro i
    rw [get_available_cameras_eq_filter, List.mem_filter, List.mem_range,
      isWorking_probeResult]

/-- Typed failures raised by the subsystem (`RuntimeError` sites in
camera_utils.py, plus operator cancellation). -/
inductive CamError where
  | noDevicesAvailable
  | deviceOpenFailed (index : Nat) (available : List Nat)
deriving DecidableEq, Repr

/-- `select_best_camera` (camera_utils.py:51-93): enumerate with the
default bound 5; raise on empty; return `available[0]` when exactly one;
otherwise return `available[-1]` when preferring external devices and
`available[0]` when preferring built-in ones. -/
def select_best_camera (world : World) (preferExt : Bool) : Except CamError Nat :=
  match get_available_cameras world 5 with
  | [] => .error .noDevicesAvailable
  | [x] => .ok x
  | x :: y :: rest =>
    if preferExt then .ok ((x :: y :: rest).getLast (List.cons_ne_nil x (y :: rest)))
    else .ok x

/-- Index actually used by `open_camera` (camera_utils.py:113): the
explicit `camera_index` when supplied, otherwise the auto-selected one. -/
def resolve_index (wSel : World) (cameraIndex : Option Nat) (preferExt : Bool) :
    Except CamError Nat :=
  match cameraIndex with
  | some i => .ok i
  | none => select_best_camera wSel preferExt

/-- `open_camera` (camera_utils.py:96-126).  The capture layer is
sampled at each call into it, so the embedding carries two snapshots:
`wSel` is the device state seen by the auto-selection scan, `wOpen` the
state seen by the open attempt and by the diagnostic rescan on the
failure path.  The returned capture handle is represented by the index
it is bound to. -/
def open_camera (wSel wOpen : World) (cameraIndex : Option Nat) (preferExt : Bool) :
    Except CamError Nat :=
  match resolve_index wSel cameraIndex preferExt with
  | .error e => .error e
  | .ok i =>
    if (wOpen i).opens then .ok i
    else .error (.deviceOpenFailed i (get_available_cameras wOpen 5))

theorem pairwise_lt_le_getLast :
    ∀ (l : List Nat) (hne : l ≠ []), l.Pairwise (· < ·) →
      ∀ a ∈ l, a ≤ l.getLast hne := by
  intro l
  induction l with
  | nil => intro hne; exact absurd rfl hne
  | cons x t ih =>
    intro _ hp a ha
    rcases List.pairwise_cons.mp hp with ⟨hx, ht⟩
    cases t with
    | nil =>
      cases ha with
      | head => simp [List.getLast]
      | tail _ h2 => cases h2
    | cons y t2 =>
      rw [List.getLast_cons (List.cons_ne_nil y t2)]
      cases ha with
      | head =>
        have hmem : (y :: t2).getLast (List.cons_ne_nil y t2) ∈ y :: t2 :=
          List.getLast_mem _
        exact Nat.le_of_lt (hx _ hmem)
      | tail _ h2 => exact ih (List.cons_ne_nil y t2) ht a h2

/-- C3: under the prefer-external auto policy `select_best_camera`
returns the single entry of a one-element enumeration, the largest
enumerated index when several devices are found, and fails with the
no-devices error on an empty enumeration; the prefer-builtin policy
symmetrically returns the smallest index when several are found. -/
theorem select_best_camera_policy (world : World) :
    (get_available_cameras world 5 = [] →
      select_best_camera world true = .error .noDevicesAvailable
      ∧ select_best_camera world false = .error .noDevicesAvailable)
    ∧ (∀ x, get_available_cameras world 5 = [x] →
        select_best_camera world true = .ok x
        ∧ select_best_camera world false = .ok x)
    ∧ (∀ x y l, get_available_cameras world 5 = x :: y :: l →
        (∃ m, select_best_camera world true = .ok m
          ∧ m ∈ x :: y :: l ∧ ∀ a ∈ x :: y :: l, a ≤ m)
        ∧ (∃ m, select_best_camera world false = .ok m
          ∧ m ∈ x :: y :: l ∧ ∀ a ∈ x :: y :: l, m ≤ a)) := by
  refine ⟨?_, ?_, ?_⟩
  · intro h
    constructor <;> simp [select_best_camera, h]
  · intro x h
    constructor <;> simp [select_best_camera, h]
  · intro x y l h
    have hsorted : (x :: y :: l).Pairwise (· < ·) := by
      have := get_available_cameras_pairwise world 5
      rwa [h] at this
    constructor
    · refine ⟨(x :: y :: l).getLast (List.cons_ne_nil x (y :: l)), ?_, ?_, ?_⟩
      · simp [select_best_camera, h]
      · exact List.getLast_mem _
      · exact pairwise_lt_le_getLast _ _ hsorted
    · refine ⟨x, ?_, ?_, ?_⟩
      · simp [select_best_camera, h]
      · exact List.mem_cons_self x (y :: l)
      · intro a ha
        rcases ha with _ | ha'
        · exact Nat.le_refl x
        · rename_i ha2
          exact Nat.le_of_lt ((List.pairwise_cons.mp hsorted).1 a ha2)

/-- A working external-style device for concrete evaluation. -/
def devWorking : Device := ⟨true, true, 640, 480, "V4L2"⟩

/-- A device that opens but never delivers a frame. -/
def devNoFrame : Device := ⟨true, false, 640, 480, "V4L2"⟩

/-- An index with no device behind it. -/
def devAbsent : Device := ⟨false, false, 0, 0, ""⟩

/-- Capture layer with working devices at indices 0 and 2 only. -/
def w02 : World := fun i => if i = 0 then devWorking else if i = 2 then devWorking else devAbsent

/-- Capture layer with no devices at all. -/
def wNone : World := fun _ => devAbsent

/-- Capture layer with a single working device, at index 1. -/
def wOne : World := fun i => if i = 1 then devWorking else devAbsent

/-- Capture layer where every index is a working device. -/
def wAll : World := fun _ => devWorking

/-- Capture layer where every device opens but never yields a frame. -/
def wHang : World := fun _ => devNoFrame

/-- C3 witness: on the layer exposing working devices 0 and 2 the
prefer-external policy picks the largest index and the prefer-builtin
policy the smallest; on an empty layer selection fails. -/
theorem select_best_camera_policy_witness :
    (∃ m, select_best_camera w02 true = .ok m
      ∧ m ∈ [0, 2] ∧ ∀ a ∈ [0, 2], a ≤ m)
    ∧ (∃ m, select_best_camera w02 false = .ok m
      ∧ m ∈ [0, 2] ∧ ∀ a ∈ [0, 2], m ≤ a)
    ∧ select_best_camera wNone true = .error .noDevicesAvailable := by
  have h2 := (select_best_camera_policy w02).2.2 0 2 [] (by decide)
  have h0 := (select_best_camera_policy wNone).1 (by decide)
  exact ⟨h2.1, h2.2, h0.1⟩

/-- One call into the capture layer, as performed by the Python code:
`openOk i` / `openFail i` is `cv2.VideoCapture(i)` succeeding or failing
to open (a handle is acquired exactly on `openOk`), `readOk` / `readFail`
is `cap.read()`, `releaseDev` is `cap.release()`, and `cfgTimeout` models
setting a timeout property on the capture object (e.g. OpenCV's
open/read timeout properties) — present in the event vocabulary so that
its absence from a trace is meaningful. -/
inductive Ev where
  | openOk (i : Nat)
  | openFail (i : Nat)
  | readOk (i : Nat)
  | readFail (i : Nat)
  | releaseDev (i : Nat)
  | cfgTimeout (i : Nat)
deriving DecidableEq, Repr

/-- Whether an event configures a timeout on the capture object. -/
def isTimeoutCfg : Ev → Bool
  | .cfgTimeout _ => true
  | _ => false

/-- Capture-layer calls made by the per-index probe inside
`get_available_cameras` (camera_utils.py:20-25): open; if opened, read
one frame and release; a failed open acquires nothing and the loop
moves on without a release call. -/
def probeEvents (world : World) (i : Nat) : List Ev :=
  if (world i).opens then
    if (world i).readOk then [.openOk i, .readOk i, .releaseDev i]
    else [.openOk i, .readFail i, .releaseDev i]
  else [.openFail i]

/-- `get_camera_info` (camera_utils.py:29-49): open; `None` when the
open fails, otherwise report (width, height, backend). -/
def get_camera_info (world : World) (index : Nat) : Option (Nat × Nat × String) :=
  if (world index).opens then
    some ((world index).width, (world index).height, (world index).backend)
  else none

/-- Capture-layer calls made by `get_camera_info`: open; on success read
the properties and release; a failed open returns `None` directly. -/
def infoEvents (world : World) (i : Nat) : List Ev :=
  if (world i).opens then [.openOk i, .releaseDev i] else [.openFail i]

/-- `test_camera` (test_all_cameras.py:7-22): true exactly when the
device opens and the first frame read succeeds. -/
def test_camera (world : World) (index : Nat) : Bool :=
  if (world index).opens then
    if (world index).readOk then true else false
  else false

/-- Capture-layer calls made by `test_camera`: open; if opened, read one
frame and release on both read outcomes; a failed open acquires
nothing. -/
def test_cameraEvents (world : World) (i : Nat) : List Ev :=
  if (world i).opens then
    if (world i).readOk then [.openOk i, .readOk i, .releaseDev i]
    else [.openOk i, .readFail i, .releaseDev i]
  else [.openFail i]

/-- Capture-layer calls of a whole enumeration scan: the probe events of
indices `0..n-1` in order. -/
def enumEvents (world : World) (n : Nat) : List Ev :=
  ((List.range n).map (probeEvents world)).flatten

/-- Capture-layer calls of `open_camera`'s open attempt on index `i`
(camera_utils.py:113-124): open; on success query characteristics via
`get_camera_info` (which opens the same index a second time) and keep
the handle for the caller; on failure rescan for the diagnostic list in
the error message. -/
def openAttemptEvents (world : World) (i : Nat) : List Ev :=
  if (world i).opens then .openOk i :: infoEvents world i
  else .openFail i :: enumEvents world 5

/-- Capture-layer calls of `open_camera` (camera_utils.py:96-126): the
auto-selection scan when no index was supplied, then the open attempt on
the resolved index. -/
def open_cameraEvents (world : World) (cameraIndex : Option Nat) (preferExt : Bool) :
    List Ev :=
  match cameraIndex with
  | some i => openAttemptEvents world i
  | none =>
    enumEvents world 5 ++
      match select_best_camera world preferExt with
      | .ok i => openAttemptEvents world i
      | .error _ => []

/-- Change an event makes to the number of handles held on index `j`:
a successful open acquires one, a release gives one back. -/
def delta (j : Nat) : Ev → Int
  | .openOk i => if i = j then 1 else 0
  | .releaseDev i => if i = j then -1 else 0
  | _ => 0

/-- Net handles held on index `j` after a trace runs to completion. -/
def runHeld (j : Nat) : List Ev → Int
  | [] => 0
  | e :: t => delta j e + runHeld j t

/-- Largest number of handles simultaneously held on index `j` at any
point of a trace, starting from `cur` already held. -/
def maxHeldFrom (j : Nat) (cur : Int) : List Ev → Int
  | [] => cur
  | e :: t => max cur (maxHeldFrom j (cur + delta j e) t)

/-- Largest number of handles simultaneously held on index `j` at any
point of a trace. -/
def maxHeld (j : Nat) (t : List Ev) : Int := maxHeldFrom j 0 t

theorem le_maxHeldFrom (j : Nat) :
    ∀ (t : List Ev) (c : Int), c ≤ maxHeldFrom j c t := by
  intro t
  induction t with
  | nil => intro c; exact le_refl c
  | cons e t ih => intro c; exact le_max_left _ _

theorem maxHeldFrom_shift (j : Nat) :
    ∀ (t : List Ev) (c d : Int), maxHeldFrom j (c + d) t = d + maxHeldFrom j c t := by
  intro t
  induction t with
  | nil => intro c d; simp [maxHeldFrom]; omega
  | cons e t ih =>
    intro c d
    have h1 : c + d + delta j e = (c + delta j e) + d := by omega
    simp only [maxHeldFrom, h1, ih (c + delta j e) d]
    omega

theorem maxHeldFrom_eq (j : Nat) (t : List Ev) (c : Int) :
    maxHeldFrom j c t = c + maxHeld j t := by
  have := maxHeldFrom_shift j t 0 c
  simpa [maxHeld] using this

theorem maxHeld_cons (j : Nat) (e : Ev) (t : List Ev) :
    maxHeld j (e :: t) = max 0 (delta j e + maxHeld j t) := by
  simp only [maxHeld, maxHeldFrom, zero_add]
  rw [maxHeldFrom_eq]
  rfl

theorem runHeld_append (j : Nat) :
    ∀ (a b : List Ev), runHeld j (a ++ b) = runHeld j a + runHeld j b := by
  intro a b
  induction a with
  | nil => simp [runHeld]
  | cons e t ih => simp [runHeld, ih]; omega

theorem maxHeld_append (j : Nat) :
    ∀ (a b : List Ev),
      maxHeld j (a ++ b) = max (maxHeld j a) (runHeld j a + maxHeld j b) := by
  intro a b
  induction a with
  | nil =>
    have h0 : (0 : Int) ≤ maxHeldFrom j 0 b := le_maxHeldFrom j b 0
    simp only [List.nil_append, maxHeld, runHeld, maxHeldFrom]
    omega
  | cons e t ih =>
    rw [List.cons_append, maxHeld_cons, maxHeld_cons, ih]
    simp [runHeld]
    omega

theorem probeEvents_bounds (world : World) (i j : Nat) :
    maxHeld j (probeEvents world i) ≤ 1 ∧ runHeld j (probeEvents world i) = 0 := by
  by_cases hij : i = j
  · subst hij
    rcases h1 : (world i).opens <;> rcases h2 : (world i).readOk <;>
      simp [probeEvents, maxHeld, maxHeldFrom, runHeld, delta, h1, h2]
  · rcases h1 : (world i).opens <;> rcases h2 : (world i).readOk <;>
      simp [probeEvents, maxHeld, maxHeldFrom, runHeld, delta, h1, h2, hij]

theorem infoEvents_bounds (world : World) (i j : Nat) :
    maxHeld j (infoEvents world i) ≤ 1 ∧ runHeld j (infoEvents world i) = 0 := by
  by_cases hij : i = j
  · subst hij
    rcases h1 : (world i).opens <;>
      simp [infoEvents, maxHeld, maxHeldFrom, runHeld, delta, h1]
  · rcases h1 : (world i).opens <;>
      simp [infoEvents, maxHeld, maxHeldFrom, runHeld, delta, h1, hij]

theorem test_cameraEvents_bounds (world : World) (i j : Nat) :
    maxHeld j (test_cameraEvents world i) ≤ 1
    ∧ runHeld j (test_cameraEvents world i) = 0 := by
  by_cases hij : i = j
  · subst hij
    rcases h1 : (world i).opens <;> rcases h2 : (world i).readOk <;>
      simp [test_cameraEvents, maxHeld, maxHeldFrom, runHeld, delta, h1, h2]
  · rcases h1 : (world i).opens <;> rcases h2 : (world i).readOk <;>
      simp [test_cameraEvents, maxHeld, maxHeldFrom, runHeld, delta, h1, h2, hij]

theorem flatten_bounds (j : Nat) :
    ∀ L : List (List Ev),
      (∀ b ∈ L, maxHeld j b ≤ 1 ∧ runHeld j b = 0) →
      maxHeld j L.flatten ≤ 1 ∧ runHeld j L.flatten = 0 := by
  intro L
  induction L with
  | nil => intro _; simp [maxHeld, maxHeldFrom, runHeld]
  | cons b L ih =>
    intro h
    have hb := h b (List.mem_cons_self b L)
    have hL := ih (fun x hx => h x (List.mem_cons_of_mem b hx))
    rw [List.flatten_cons]
    constructor
    · rw [maxHeld_append, hb.2]
      have := hL.1
      have := hb.1
      omega
    · rw [runHeld_append, hb.2, hL.2]
      omega

theorem enumEvents_bounds (world : World) (n j : Nat) :
    maxHeld j (enumEvents world n) ≤ 1 ∧ runHeld j (enumEvents world n) = 0 := by
  apply flatten_bounds
  intro b hb
  rcases List.mem_map.mp hb with ⟨i, _, rfl⟩
  exact probeEvents_bounds world i j

theorem delta_openOk_le (j i : Nat) : delta j (.openOk i) ≤ 1 := by
  simp only [delta]
  split <;> omega

theorem openAttemptEvents_bound (world : World) (i j : Nat) :
    maxHeld j (openAttemptEvents world i) ≤ 2 := by
  rcases h1 : (world i).opens
  · rw [openAttemptEvents, h1]
    simp only [Bool.false_eq_true, if_false, maxHeld_cons]
    have henum := (enumEvents_bounds world 5 j).1
    have hd : delta j (.openFail i) = 0 := rfl
    omega
  · rw [openAttemptEvents, h1]
    simp only [if_true, maxHeld_cons]
    have hinfo := (infoEvents_bounds world i j).1
    have hd := delta_openOk_le j i
    omega

theorem open_cameraEvents_bound (world : World) (cameraIndex : Option Nat)
    (preferExt : Bool) (j : Nat) :
    maxHeld j (open_cameraEvents world cameraIndex preferExt) ≤ 2 := by
  cases cameraIndex with
  | some i => exact openAttemptEvents_bound world i j
  | none =>
    rw [open_cameraEvents]
    rw [maxHeld_append, (enumEvents_bounds world 5 j).2]
    have henum := (enumEvents_bounds world 5 j).1
    rcases hsel : select_best_camera world preferExt with e | i
    · simp only [hsel]
      have h0 : maxHeld j ([] : List Ev) = 0 := rfl
      omega
    · simp only [hsel]
      have := openAttemptEvents_bound world i j
      omega

/-- C1: on every outcome path of the probing operations — a device that
fails to open, one that opens but whose first frame read fails, and one
whose read succeeds — all handles acquired during the call have been
released when the call returns: the net handle count of every trace of
the per-index probe, of `test_camera`, and of `get_camera_info` is zero
for every index, in every capture layer. -/
theorem probe_releases_on_all_paths (world : World) (i j : Nat) :
    runHeld j (probeEvents world i) = 0
    ∧ runHeld j (test_cameraEvents world i) = 0
    ∧ runHeld j (infoEvents world i) = 0 :=
  ⟨(probeEvents_bounds world i j).2, (test_cameraEvents_bounds world i j).2,
    (infoEvents_bounds world i j).2⟩

/-- C4 counterexample: at a concrete device (index 0 of `wHang`) that
opens but never delivers a frame, the probe's trace contains no
timeout-configuration call at all, so its frame read is not bounded by
any explicitly configured timeout. -/
theorem probe_timeout_counterexample :
    probeResult (wHang 0) = .opensButNoFrame
    ∧ (probeEvents wHang 0).any isTimeoutCfg = false := by
  constructor <;> rfl

/-- C4 amended: the probe configures no explicit timeout on any path —
its single frame read is bounded only by the capture backend's own
implicit wait; a device that opens but fails to deliver the frame is
still classified `OpensButNoFrame` and released before the probe
returns. -/
theorem probe_no_explicit_timeout (world : World) (i : Nat) :
    (probeEvents world i).any isTimeoutCfg = false
    ∧ ((world i).opens = true → (world i).readOk = false →
        probeResult (world i) = .opensButNoFrame
        ∧ probeEvents world i = [.openOk i, .readFail i, .releaseDev i]) := by
  rcases h1 : (world i).opens <;> rcases h2 : (world i).readOk <;>
    simp [probeEvents, probeResult, isTimeoutCfg, h1, h2]

/-- C4 amended, witnessed on the layer whose devices open but never
deliver frames. -/
theorem probe_no_explicit_timeout_witness :
    (wHang 1).opens = true ∧ (wHang 1).readOk = false
    ∧ probeResult (wHang 1) = .opensButNoFrame
    ∧ probeEvents wHang 1 = [.openOk 1, .readFail 1, .releaseDev 1] := by
  have h := (probe_no_explicit_timeout wHang 1).2 (by decide) (by decide)
  exact ⟨by decide, by decide, h.1, h.2⟩

/-- C5 counterexample: opening the working device at index 0 produces a
trace in which two capture handles to index 0 are held at once — the
handle being acquired plus the one `get_camera_info` opens on the same
index before releasing it. -/
theorem open_camera_double_handle_counterexample :
    maxHeld 0 (open_cameraEvents wAll (some 0) true) = 2 := by decide

/-- C5 amended: the per-index probe, `get_camera_info`, and a whole
enumeration scan hold at most one capture handle on any index at any
point, but `open_camera` holds up to two on the index it acquires: on
success it queries characteristics through `get_camera_info`, which
opens the same index a second time while the returned handle is open. -/
theorem handle_bounds_amended (world : World) (i j : Nat) (cameraIndex : Option Nat)
    (preferExt : Bool) :
    maxHeld j (probeEvents world i) ≤ 1
    ∧ maxHeld j (infoEvents world i) ≤ 1
    ∧ maxHeld j (enumEvents world 5) ≤ 1
    ∧ maxHeld j (open_cameraEvents world cameraIndex preferExt) ≤ 2 :=
  ⟨(probeEvents_bounds world i j).1, (infoEvents_bounds world i j).1,
    (enumEvents_bounds world 5 j).1,
    open_cameraEvents_bound world cameraIndex preferExt j⟩

/-- C6: an explicitly supplied index is used as-is — `open_camera`
resolves it without consulting the enumeration, its very first
capture-layer call is the open attempt on that index, and the attempt
is made even when the index is absent from the working-device list. -/
theorem explicit_index_bypasses_membership (world : World) (i : Nat)
    (_hnotmem : i ∉ get_available_cameras world 5) :
    (∀ preferExt, resolve_index world (some i) preferExt = .ok i)
    ∧ (open_cameraEvents world (some i) true).head? =
        some (if (world i).opens then Ev.openOk i else Ev.openFail i)
    ∧ open_camera world world (some i) true =
        (if (world i).opens then Except.ok i
         else .error (.deviceOpenFailed i (get_available_cameras world 5))) := by
  refine ⟨fun _ => rfl, ?_, ?_⟩
  · rcases h1 : (world i).opens <;>
      simp [open_cameraEvents, openAttemptEvents, h1]
  · rcases h1 : (world i).opens <;>
      simp [open_camera, resolve_index, h1]

/-- C6 witnessed at index 7, which no scan of the empty capture layer
enumerates: the open is still attempted directly on 7. -/
theorem explicit_index_bypasses_membership_witness :
    7 ∉ get_available_cameras wNone 5
    ∧ (open_cameraEvents wNone (some 7) true).head? = some (Ev.openFail 7)
    ∧ open_camera wNone wNone (some 7) true =
        .error (.deviceOpenFailed 7 []) := by
  have h := explicit_index_bypasses_membership wNone 7 (by decide)
  refine ⟨by decide, ?_, ?_⟩
  · have h2 := h.2.1
    simpa [wNone, devAbsent] using h2
  · have h3 := h.2.2
    simpa [wNone, devAbsent] using h3

/-- C7: when the open attempt on the resolved index fails, the error
carries that index together with an available-device list computed by a
fresh enumeration of the capture layer as it stands at failure time
(`wOpen`), independent of whatever the selection-time layer (`wSel`)
showed; moreover the trace on this path performs that rescan after the
failed open attempt. -/
theorem open_failure_fresh_rescan :
    (∀ (wSel wOpen : World) (cameraIndex : Option Nat) (preferExt : Bool) (i : Nat),
      resolve_index wSel cameraIndex preferExt = .ok i →
      (wOpen i).opens = false →
      open_camera wSel wOpen cameraIndex preferExt =
        .error (.deviceOpenFailed i (get_available_cameras wOpen 5)))
    ∧ (∀ (world : World) (i : Nat) (preferExt : Bool), (world i).opens = false →
      open_cameraEvents world (some i) preferExt =
        .openFail i :: enumEvents world 5) := by
  constructor
  · intro wSel wOpen cameraIndex preferExt i hres hop
    simp [open_camera, hres, hop]
  · intro world i preferExt hop
    simp [open_cameraEvents, openAttemptEvents, hop]

/-- Capture layer whose only working device is index 0 — the state the
layer of `w02` degraded to by the time the open attempt runs. -/
def w0only : World := fun i => if i = 0 then devWorking else devAbsent

/-- C7 witnessed with the layer changing between selection and open:
auto-selection over `w02` resolves index 2, the open attempt then fails
because device 2 is gone, and the error reports the freshly rescanned
list `[0]` of the failure-time layer rather than the selection-time
list `[0, 2]`. -/
theorem open_failure_fresh_rescan_witness :
    resolve_index w02 none true = .ok 2
    ∧ get_available_cameras w02 5 = [0, 2]
    ∧ (w0only 2).opens = false
    ∧ open_camera w02 w0only none true = .error (.deviceOpenFailed 2 [0]) := by
  have h := open_failure_fresh_rescan.1 w02 w0only none true 2 (by rfl) (by decide)
  refine ⟨by rfl, by decide, by decide, ?_⟩
  rw [h]
  rfl

/-- Python `str.strip()` as used on the operator's reply: drop
whitespace from both ends of the character sequence. -/
def pyStrip (s : String) : String :=
  ⟨((s.data.dropWhile Char.isWhitespace).reverse.dropWhile Char.isWhitespace).reverse⟩

/-- Value of a non-empty all-digit character run, as Python `int()`
reads it. -/
def digitsVal (l : List Char) : Option Nat :=
  if l ≠ [] ∧ l.all Char.isDigit then
    some (l.foldl (fun acc c => 10 * acc + (c.toNat - 48)) 0)
  else none

/-- Python `int()` on an already-stripped ASCII string: an optional
sign followed by one or more decimal digits; anything else raises
`ValueError`, embedded as `none`. -/
def pyInt (s : String) : Option Int :=
  match s.data with
  | [] => none
  | c :: rest =>
    if c = '-' then (digitsVal rest).map (fun n => -(n : Int))
    else if c = '+' then (digitsVal rest).map (fun n => (n : Int))
    else (digitsVal (c :: rest)).map (fun n => (n : Int))

/-- One operator interaction at the prompt: a typed line, or the
keyboard-interrupt cancellation signal arriving there. -/
inductive Inp where
  | line (s : String)
  | cancel
deriving DecidableEq, Repr

/-- Terminal outcome of interactive selection on a script of operator
inputs; `outOfInput` marks a script too short to reach a terminal
outcome (the Python loop would still be prompting). -/
inductive IResult where
  | selected (i : Nat)
  | failed (e : CamError)
  | cancelled
  | outOfInput
deriving DecidableEq, Repr

/-- The `while True` prompt loop of `list_cameras_interactive`
(camera_utils.py:158-175), paired with the number of operator responses
consumed.  Empty input returns `select_best_camera(prefer_external=True)`
(a fresh auto-selection); a numeric reply contained in `available` is
returned; a numeric reply not in the list prints an invalid-choice
message and re-prompts; a non-numeric reply raises `ValueError`, which
is caught and re-prompts; a keyboard interrupt is re-raised at once. -/
def iloop (available : List Nat) (world : World) : List Inp → IResult × Nat
  | [] => (.outOfInput, 0)
  | .cancel :: _ => (.cancelled, 1)
  | .line s :: rest =>
    if pyStrip s = "" then
      match select_best_camera world true with
      | .ok i => (.selected i, 1)
      | .error e => (.failed e, 1)
    else
      match pyInt (pyStrip s) with
      | none =>
        let r := iloop available world rest
        (r.1, r.2 + 1)
      | some idx =>
        if available.any (fun a => (a : Int) = idx) then (.selected idx.toNat, 1)
        else
          let r := iloop available world rest
          (r.1, r.2 + 1)

/-- `list_cameras_interactive` (camera_utils.py:129-175): enumerate,
fail when nothing was found, return the single entry outright when the
list has exactly one element, and otherwise enter the prompt loop. -/
def list_cameras_interactive (world : World) (inputs : List Inp) : IResult × Nat :=
  match get_available_cameras world 5 with
  | [] => (.failed .noDevicesAvailable, 0)
  | [x] => (.selected x, 0)
  | x :: y :: rest => iloop (x :: y :: rest) world inputs

/-- C8: at the interactive prompt, a reply that is numeric but not in
the device list and a reply that is not numeric at all each leave the
loop running on the rest of the script — a re-prompt, not a failure or
a return — while a cancellation signal terminates the loop immediately
as `cancelled` with nothing further consumed or retried. -/
theorem interactive_invalid_reprompts_cancel_propagates
    (available : List Nat) (world : World) (s : String) (rest : List Inp)
    (hne : pyStrip s ≠ "")
    (hnomatch : ∀ n : Int, pyInt (pyStrip s) = some n → ∀ a ∈ available, (a : Int) ≠ n) :
    (iloop available world (.line s :: rest)).1 = (iloop available world rest).1
    ∧ iloop available world (.cancel :: rest) = (.cancelled, 1) := by
  constructor
  · rcases hp : pyInt (pyStrip s) with _ | n
    · simp [iloop, hne, hp]
    · have hany : available.any (fun a => (a : Int) = n) = false := by
        rw [List.any_eq_false]
        intro a ha
        simpa using hnomatch n hp a ha
      simp [iloop, hne, hp, hany]
  · rfl

/-- C8 witnessed over the device list `[0, 2]`: the out-of-list reply
`"5"` re-prompts (the loop continues on the rest of the script) and a
cancellation at the prompt returns the cancelled outcome at once. -/
theorem interactive_invalid_reprompts_cancel_propagates_witness :
    (iloop [0, 2] w02 [.line "5"]).1 = (iloop [0, 2] w02 []).1
    ∧ iloop [0, 2] w02 [.cancel] = (.cancelled, 1) :=
  interactive_invalid_reprompts_cancel_propagates [0, 2] w02 "5" []
    (by decide)
    (by
      intro n hn a ha
      have h5 : pyInt (pyStrip "5") = some 5 := by decide
      rw [h5] at hn
      cases hn
      simp only [List.mem_cons, List.not_mem_nil, or_false] at ha
      rcases ha with rfl | rfl <;> decide)

/-- C9: when the enumeration holds more than one device, the empty
operator reply makes interactive selection return exactly the index the
prefer-external auto policy selects for the same enumeration. -/
theorem interactive_empty_equals_auto (world : World) (rest : List Inp)
    (x y : Nat) (l : List Nat)
    (henum : get_available_cameras world 5 = x :: y :: l) :
    ∃ i, select_best_camera world true = .ok i
      ∧ list_cameras_interactive world (.line "" :: rest) = (.selected i, 1) := by
  refine ⟨(x :: y :: l).getLast (List.cons_ne_nil x (y :: l)), ?_, ?_⟩
  · simp [select_best_camera, henum]
  · have hsel : select_best_camera world true
        = .ok ((x :: y :: l).getLast (List.cons_ne_nil x (y :: l))) := by
      simp [select_best_camera, henum]
    have hstrip : pyStrip "" = "" := rfl
    simp [list_cameras_interactive, henum, iloop, hstrip, hsel]

/-- C9 witnessed on the layer exposing devices 0 and 2: empty input
selects 2, exactly as the prefer-external auto policy does. -/
theorem interactive_empty_equals_auto_witness :
    ∃ i, select_best_camera w02 true = .ok i
      ∧ list_cameras_interactive w02 [.line ""] = (.selected i, 1) :=
  interactive_empty_equals_auto w02 [] 0 2 [] (by rfl)

/-- C10: when enumeration finds exactly one working device, interactive
selection returns that index immediately, consuming none of the
operator's scripted input. -/
theorem interactive_single_no_prompt (world : World) (inputs : List Inp)
    (x : Nat) (h : get_available_cameras world 5 = [x]) :
    list_cameras_interactive world inputs = (.selected x, 0) := by
  simp [list_cameras_interactive, h]

/-- C10 witnessed on the layer whose only working device is index 1:
the operator script is never consulted. -/
theorem interactive_single_no_prompt_witness :
    list_cameras_interactive wOne [.line "0"] = (.selected 1, 0) :=
  interactive_single_no_prompt wOne [.line "0"] 1 (by rfl)
